import Mathlib

/-!
Verification model of the WgcBridge capture session (src/WgcBridge/WgcBridge.cpp).

The C++ code runs a per-frame pipeline inside `CaptureSession::OnFrameArrived`:
validate the incoming texture's dimensions, optionally crop on the GPU,
optionally scale through a textured-quad render pass, read the pixels back to a
tightly packed host buffer, and publish that buffer by swapping it into the
`latestData` slot only when no reader holds a lease.  The exported C functions
at the bottom of the file form the consumer interface.

The model below is a shallow embedding of that code:
- machine integers become `Int` (the quantities involved are bounded well below
  any overflow, the code validates dimensions to at most 8192);
- the GPU environment (frame availability, texture dimensions, creation/map
  success, mapped row pitch and mapped bytes) is passed in as an explicit
  `FrameEnv` record, resolving each fallible platform call as a boolean flag;
- the float arithmetic of the scale-factor computation is modelled faithfully:
  `fl32` rounds an exact rational to the nearest binary32 value (ties to even),
  and `computeTargetDimsFloat` applies it after each float operation of the
  code (the two divisions and the two multiplications; the int-to-float
  conversions are exact because every operand is at most 8192 < 2^24, and
  `std::min` on floats returns one of its arguments exactly).  The idealized
  exact-rational `computeTargetDims` is kept alongside for the comparison of
  the code's truncation against the specification's rounding at inputs where
  the float arithmetic is exact;
- `std::vector<unsigned char>` buffers become `List Nat`;
- GPU texture identity is tracked by a small marker type `GpuTex`.
-/

/-- Marker for which GPU texture a texture-valued slot currently refers to. -/
inductive GpuTex where
  | null
  | source
  | cropped
  | scaled
  deriving DecidableEq, Repr

/-- State of a `CaptureSession` (struct CaptureSession in WgcBridge.cpp).
Fields mirror the C++ members that the modelled operations read or write;
`*Valid` booleans stand for the corresponding `com_ptr` being non-null. -/
structure CaptureSession where
  latestData : List Nat
  backBuffer : List Nat
  readers : Int
  width : Int
  height : Int
  frameCount : Int
  maxWidth : Int
  maxHeight : Int
  cropX : Int
  cropY : Int
  cropW : Int
  cropH : Int
  closing : Bool
  interopEnabled : Bool
  pipelineBuilt : Bool
  scaledTextureValid : Bool
  scaledTextureWidth : Int
  scaledTextureHeight : Int
  croppedTextureValid : Bool
  croppedTextureWidth : Int
  croppedTextureHeight : Int
  stagingTextureValid : Bool
  stagingTextureWidth : Int
  stagingTextureHeight : Int
  latestGpuTexture : GpuTex
  vrrEnabled : Bool
  deriving DecidableEq, Repr

/-- The member-initializer state of a freshly constructed `CaptureSession`. -/
def initSession : CaptureSession where
  latestData := []
  backBuffer := []
  readers := 0
  width := 0
  height := 0
  frameCount := 0
  maxWidth := 0
  maxHeight := 0
  cropX := 0
  cropY := 0
  cropW := 0
  cropH := 0
  closing := false
  interopEnabled := false
  pipelineBuilt := false
  scaledTextureValid := false
  scaledTextureWidth := 0
  scaledTextureHeight := 0
  croppedTextureValid := false
  croppedTextureWidth := 0
  croppedTextureHeight := 0
  stagingTextureValid := false
  stagingTextureWidth := 0
  stagingTextureHeight := 0
  latestGpuTexture := GpuTex.null
  vrrEnabled := false

/-- Environment of one `OnFrameArrived` invocation: the outcome of each
platform call the handler makes, resolved ahead of time.  `texW`/`texH` are the
dimensions of the incoming frame's texture; the `*Ok` flags are the success of
the corresponding D3D11 create/map calls; `*Pitch`/`*Data` describe the mapped
staging memory (`*Data addr` is the byte at offset `addr`). -/
structure FrameEnv where
  hasFrame : Bool
  surfaceOk : Bool
  texW : Int
  texH : Int
  cropCreateOk : Bool
  scaledReadbackCreateOk : Bool
  scaledMapOk : Bool
  scaledPitch : Nat
  scaledData : Nat → Nat
  stagingCreateOk : Bool
  stagingMapOk : Bool
  stagingPitch : Nat
  stagingData : Nat → Nat

/-- Exact-arithmetic idealization of the scale-stage target dimensions
(WgcBridge.cpp lines 213-215): `scale = min(maxWidth/currentW,
maxHeight/currentH)` and each target dimension is
`max(1, (int)(current * scale))`.  The C cast truncates toward zero, which on
the non-negative values reachable here is `Int.floor`.  This version performs
the arithmetic over exact rationals; it coincides with the code's float32
computation exactly at inputs where every intermediate float operation is
exact (such as the 4x3/(2,2) and 3840x2160/(1920,1080) inputs used below), and
is retained for the truncation-versus-rounding comparison against
`computeTargetDimsSpec`.  The faithful float32 version used by the pipeline is
`computeTargetDimsFloat`. -/
def computeTargetDims (maxW maxH curW curH : Int) : Int × Int :=
  let scale : ℚ := min ((maxW : ℚ) / (curW : ℚ)) ((maxH : ℚ) / (curH : ℚ))
  (max 1 ⌊(curW : ℚ) * scale⌋, max 1 ⌊(curH : ℚ) * scale⌋)

/-- Modelled from the spec: the spec's formula for the scale-stage target
dimensions, which uses `round(current * scale)` where the code truncates.
Kept only to compare against `computeTargetDims`. -/
def computeTargetDimsSpec (maxW maxH curW curH : Int) : Int × Int :=
  let scale : ℚ := min ((maxW : ℚ) / (curW : ℚ)) ((maxH : ℚ) / (curH : ℚ))
  (max 1 (round ((curW : ℚ) * scale)), max 1 (round ((curH : ℚ) * scale)))

/-- Round a positive rational to the nearest IEEE-754 binary32 value, ties to
even: with `e` the binary exponent of `x`, the significand `x * 2^(23-e)` lies
in `[2^23, 2^24)` and is rounded to the nearest integer (to the even one on a
tie).  Overflow and subnormals are not modelled; every value this development
applies `fl32` to lies well inside the normal range (between 8192⁻¹ and
8192·8192).  Non-positive inputs (never produced here) map to 0. -/
def fl32 (x : ℚ) : ℚ :=
  if 0 < x then
    let e := Int.log 2 x
    let m := x * 2 ^ (23 - e)
    let f := ⌊m⌋
    let r := if m - f < 1 / 2 then f
             else if 1 / 2 < m - f then f + 1
             else if Even f then f else f + 1
    (r : ℚ) * 2 ^ (e - 23)
  else 0

/-- Target dimensions of the scale stage with the code's float32 arithmetic
(WgcBridge.cpp lines 213-215): each float operation — the two divisions and
the two multiplications — rounds its exact result to binary32 via `fl32`; the
int-to-float conversions are exact for the validated range (all operands at
most 8192 < 2^24), `std::min` returns one of its float arguments exactly, and
the `(int)` cast truncates toward zero, which is `Int.floor` on these
non-negative values. -/
def computeTargetDimsFloat (maxW maxH curW curH : Int) : Int × Int :=
  let scale : ℚ := min (fl32 ((maxW : ℚ) / (curW : ℚ))) (fl32 ((maxH : ℚ) / (curH : ℚ)))
  (max 1 ⌊fl32 ((curW : ℚ) * scale)⌋, max 1 ⌊fl32 ((curH : ℚ) * scale)⌋)

/-- Readback copy of a mapped staging texture into a tightly packed host
buffer (WgcBridge.cpp lines 323-339 and 406-419): if the mapped row pitch
equals `w*4` the whole buffer is copied in one `memcpy`, otherwise each of the
`h` rows of `w*4` bytes is copied individually, skipping the pitch padding. -/
def copyPixels (w h pitch : Nat) (src : Nat → Nat) : List Nat :=
  let rs := w * 4
  if pitch = rs then
    (List.range (rs * h)).map src
  else
    (List.range (rs * h)).map (fun i => src (i / rs * pitch + i % rs))

/-- The publish/exchange step (WgcBridge.cpp lines 343-355 and 423-434).
`rOpt` is the reader count seen by the optimistic check, `rLock` the count
re-read under `dataMutex`; `produced` is the freshly produced buffer.  On
success the produced buffer is swapped into `latestData`, the evicted previous
`latestData` is returned as the second component, the published width/height
are updated and the frame counter is incremented; otherwise the state is left
unchanged and the produced buffer is handed back.  The third component is
whether the publish happened. -/
def publishExchange (rOpt rLock : Int) (s : CaptureSession) (produced : List Nat)
    (w h : Int) : CaptureSession × List Nat × Bool :=
  if rOpt = 0 then
    if rLock = 0 then
      ({ s with latestData := produced, width := w, height := h,
                frameCount := s.frameCount + 1 },
       s.latestData, true)
    else (s, produced, false)
  else (s, produced, false)

/-- Result of the crop stage: the updated session, the current working
dimensions, and which texture is now the pipeline's current texture. -/
structure CropResult where
  session : CaptureSession
  curW : Int
  curH : Int
  tex : GpuTex
  deriving Repr

/-- Cache-ensure block of the crop stage (WgcBridge.cpp lines 179-192): if the
cached cropped texture is missing or its dimensions differ, attempt to recreate
it; on creation failure the cache is left as it was. -/
def ensureCroppedTexture (s : CaptureSession) (cw ch : Int) (createOk : Bool) :
    CaptureSession :=
  if ¬s.croppedTextureValid ∨ s.croppedTextureWidth ≠ cw ∨
      s.croppedTextureHeight ≠ ch then
    if createOk then
      { s with croppedTextureValid := true, croppedTextureWidth := cw,
               croppedTextureHeight := ch }
    else s
  else s

/-- The GPU crop stage (WgcBridge.cpp lines 177-202).  When the snapshot crop
rectangle has positive width and height: ensure the cached cropped texture, and
if a cropped texture exists the region copy makes it the current texture with
the crop's dimensions; otherwise the source texture passes through unchanged. -/
def cropStage (s : CaptureSession) (texW texH : Int) (env : FrameEnv) : CropResult :=
  let localCropW := s.cropW
  let localCropH := s.cropH
  if 0 < localCropW ∧ 0 < localCropH then
    let s1 := ensureCroppedTexture s localCropW localCropH env.cropCreateOk
    if s1.croppedTextureValid then
      { session := s1, curW := localCropW, curH := localCropH, tex := GpuTex.cropped }
    else
      { session := s1, curW := texW, curH := texH, tex := GpuTex.source }
  else
    { session := s, curW := texW, curH := texH, tex := GpuTex.source }

/-- Result of the scale stage: the updated session, the code's `frameUpdated`
flag, and whether the stage's own GPU-to-CPU readback succeeded (staging
texture created and mapped, pixels copied into the back buffer). -/
structure ScaleResult where
  session : CaptureSession
  frameUpdated : Bool
  readbackSucceeded : Bool
  deriving Repr

/-- Lazy one-time build of the quad-rendering pipeline (WgcBridge.cpp lines
219-258), guarded by the null check on the cached shaders. -/
def ensurePipeline (s : CaptureSession) : CaptureSession :=
  if s.pipelineBuilt then s else { s with pipelineBuilt := true }

/-- Cache-ensure block for the scaled render-target texture (WgcBridge.cpp
lines 260-276); the code does not check the creation result here. -/
def ensureScaledTexture (s : CaptureSession) (tw th : Int) : CaptureSession :=
  if ¬s.scaledTextureValid ∨ s.scaledTextureWidth ≠ tw ∨
      s.scaledTextureHeight ≠ th then
    { s with scaledTextureValid := true, scaledTextureWidth := tw,
             scaledTextureHeight := th }
  else s

/-- The GPU scale stage (WgcBridge.cpp lines 209-368).  Lazily builds the quad
pipeline, recreates the cached render-target texture when target dimensions
change, renders, and immediately reads the scaled texture back into the back
buffer; if that readback succeeds it attempts the publish exchange, and only a
successful exchange sets `frameUpdated`. -/
def scaleStage (s : CaptureSession) (curW curH : Int) (env : FrameEnv) : ScaleResult :=
  let td := computeTargetDimsFloat s.maxWidth s.maxHeight curW curH
  let targetW := td.1
  let targetH := td.2
  let s2 := ensureScaledTexture (ensurePipeline s) targetW targetH
  let s3 := { s2 with latestGpuTexture := GpuTex.scaled }
  if env.scaledReadbackCreateOk then
    if env.scaledMapOk then
      let s4 := { s3 with
        backBuffer := copyPixels targetW.toNat targetH.toNat env.scaledPitch env.scaledData }
      let pub := publishExchange s4.readers s4.readers s4 s4.backBuffer targetW targetH
      if pub.2.2 then
        { session := { pub.1 with backBuffer := pub.2.1 }, frameUpdated := true,
          readbackSucceeded := true }
      else
        { session := pub.1, frameUpdated := false, readbackSucceeded := true }
    else
      { session := s3, frameUpdated := false, readbackSucceeded := false }
  else
    { session := s3, frameUpdated := false, readbackSucceeded := false }

/-- Result of the general readback stage: updated session and whether the
publish exchange at its end succeeded. -/
structure ReadbackResult where
  session : CaptureSession
  published : Bool
  deriving Repr

/-- Map-and-publish half of the general readback stage (WgcBridge.cpp lines
403-435): map the staging texture, copy into a local buffer, then attempt the
publish exchange; a failed map drops the frame. -/
def generalReadbackCore (s : CaptureSession) (copyW copyH : Int) (env : FrameEnv) :
    ReadbackResult :=
  if env.stagingMapOk then
    let localBuffer := copyPixels copyW.toNat copyH.toNat env.stagingPitch env.stagingData
    let pub := publishExchange s.readers s.readers s localBuffer copyW copyH
    { session := pub.1, published := pub.2.2 }
  else
    { session := s, published := false }

/-- The general readback stage (WgcBridge.cpp lines 370-436): recreate the
cached CPU staging texture if its dimensions differ from the working
dimensions (a failed creation returns immediately, dropping the frame), then
map, copy and attempt the publish exchange. -/
def generalReadback (s : CaptureSession) (copyW copyH : Int) (env : FrameEnv) :
    ReadbackResult :=
  if ¬s.stagingTextureValid ∨ s.stagingTextureWidth ≠ copyW ∨
      s.stagingTextureHeight ≠ copyH then
    if env.stagingCreateOk then
      generalReadbackCore
        { s with stagingTextureValid := true, stagingTextureWidth := copyW,
                 stagingTextureHeight := copyH } copyW copyH env
    else
      { session := s, published := false }
  else
    generalReadbackCore s copyW copyH env

/-- Condition of the scale stage (WgcBridge.cpp line 207): a maximum bound is
configured and the current working width or height exceeds it. -/
def useScaler (s : CaptureSession) (curW curH : Int) : Prop :=
  0 < s.maxWidth ∧ 0 < s.maxHeight ∧ (s.maxWidth < curW ∨ s.maxHeight < curH)

instance (s : CaptureSession) (curW curH : Int) : Decidable (useScaler s curW curH) := by
  unfold useScaler
  infer_instance

/-- Dimension validation of the frame source adapter (WgcBridge.cpp lines
160-170): a frame is accepted only if both dimensions are positive and at most
8192; additionally the frame and its surface must have been obtained. -/
def frameAccepted (s : CaptureSession) (env : FrameEnv) : Prop :=
  ¬s.closing ∧ env.hasFrame ∧ env.surfaceOk ∧
    0 < env.texW ∧ 0 < env.texH ∧ env.texW ≤ 8192 ∧ env.texH ≤ 8192

instance (s : CaptureSession) (env : FrameEnv) : Decidable (frameAccepted s env) := by
  unfold frameAccepted
  infer_instance

/-- Observable outcome of one `OnFrameArrived` invocation: the final session
state plus the execution trace the claims talk about: the code's
`frameUpdated` flag, whether the scale stage's own readback succeeded, whether
the general readback stage (the `if (!frameUpdated)` block) was entered, and
whether a publish exchange succeeded anywhere in the invocation. -/
structure FrameResult where
  session : CaptureSession
  frameUpdated : Bool
  scaledReadbackSucceeded : Bool
  ranGeneralReadback : Bool
  published : Bool
  deriving Repr

/-- Outcome of an invocation that drops the frame before any pipeline stage. -/
def dropResult (s : CaptureSession) : FrameResult where
  session := s
  frameUpdated := false
  scaledReadbackSucceeded := false
  ranGeneralReadback := false
  published := false

/-- `CaptureSession::OnFrameArrived` (WgcBridge.cpp lines 116-447), with its
execution trace.  Early returns: the closing flag, no next frame, surface or
interface access failure, and the dimension validation (reject `≤ 0` or
`> 8192`).  Then crop stage, `latestGpuTexture` update, the conditional scale
stage, and the general readback stage when `frameUpdated` was not set. -/
def onFrameArrivedT (s : CaptureSession) (env : FrameEnv) : FrameResult :=
  if s.closing then dropResult s
  else if ¬env.hasFrame then dropResult s
  else if ¬env.surfaceOk then dropResult s
  else if env.texW ≤ 0 ∨ env.texH ≤ 0 then dropResult s
  else if 8192 < env.texW ∨ 8192 < env.texH then dropResult s
  else
    let cr := cropStage s env.texW env.texH env
    let s1 : CaptureSession := { cr.session with latestGpuTexture := cr.tex }
    if useScaler s1 cr.curW cr.curH then
      let sr := scaleStage s1 cr.curW cr.curH env
      if sr.frameUpdated then
        { session := sr.session, frameUpdated := true,
          scaledReadbackSucceeded := sr.readbackSucceeded,
          ranGeneralReadback := false, published := true }
      else
        let gr := generalReadback sr.session cr.curW cr.curH env
        { session := gr.session, frameUpdated := false,
          scaledReadbackSucceeded := sr.readbackSucceeded,
          ranGeneralReadback := true, published := gr.published }
    else
      let gr := generalReadback s1 cr.curW cr.curH env
      { session := gr.session, frameUpdated := false,
        scaledReadbackSucceeded := false,
        ranGeneralReadback := true, published := gr.published }

/-- The session state after one `OnFrameArrived` invocation. -/
def onFrameArrived (s : CaptureSession) (env : FrameEnv) : CaptureSession :=
  (onFrameArrivedT s env).session

/-- `GetCaptureStatus` (WgcBridge.cpp lines 662-665): `-1` for a null handle,
otherwise the session's frame counter. -/
def getCaptureStatus (handle : Option CaptureSession) : Int :=
  match handle with
  | Option.none => -1
  | Option.some s => s.frameCount

/-- `GetReaderCount` (WgcBridge.cpp lines 667-670). -/
def getReaderCount (handle : Option CaptureSession) : Int :=
  match handle with
  | Option.none => -1
  | Option.some s => s.readers

/-- `SetCaptureMaxResolution` (WgcBridge.cpp lines 672-678). -/
def setCaptureMaxResolution (s : CaptureSession) (mw mh : Int) : CaptureSession :=
  { s with maxWidth := mw, maxHeight := mh }

/-- `SetCaptureCropRect` (WgcBridge.cpp lines 700-716): negative inputs become
0; width and height additionally have 8192 as an upper clamp; the four results
are stored.  Note the code applies no upper clamp to `x` and `y`. -/
def setCaptureCropRect (s : CaptureSession) (x y w h : Int) : CaptureSession :=
  let x1 := if x < 0 then 0 else x
  let y1 := if y < 0 then 0 else y
  let w1 := if w < 0 then 0 else w
  let h1 := if h < 0 then 0 else h
  let w2 := if 8192 < w1 then 8192 else w1
  let h2 := if 8192 < h1 then 8192 else h1
  { s with cropX := x1, cropY := y1, cropW := w2, cropH := h2 }

/-- Result of `GetLatestFrame`: the return value, the destination memory after
the call, and the values of the two out-parameters after the call. -/
structure CopyOutResult where
  ok : Bool
  dest : List Nat
  outW : Int
  outH : Int
  deriving DecidableEq, Repr

/-- `GetLatestFrame` (WgcBridge.cpp lines 718-733).  `dest` is the caller's
destination memory and `oldW`/`oldH` the prior contents of the out-parameters.
Null handle or empty `latestData`: return false touching nothing.  Otherwise
the out-parameters receive the published width/height; then, if the buffer is
larger than `bufferSize`, return false without copying; else `memcpy` the
`latestData.length` bytes into the front of the destination. -/
def getLatestFrame (handle : Option CaptureSession) (dest : List Nat)
    (bufferSize : Nat) (oldW oldH : Int) : CopyOutResult :=
  match handle with
  | Option.none => { ok := false, dest := dest, outW := oldW, outH := oldH }
  | Option.some s =>
    if s.latestData = [] then { ok := false, dest := dest, outW := oldW, outH := oldH }
    else if bufferSize < s.latestData.length then
      { ok := false, dest := dest, outW := s.width, outH := s.height }
    else
      { ok := true, dest := s.latestData ++ dest.drop s.latestData.length,
        outW := s.width, outH := s.height }

/-- Result of `AcquireLatestFrame`: updated session, return value, and the
out-parameters (reference to the buffer, its size, width, height) — `none`
when the call fails without writing them. -/
structure AcquireResult where
  session : CaptureSession
  ok : Bool
  out : Option (List Nat × Nat × Int × Int)
  deriving Repr

/-- `AcquireLatestFrame` (WgcBridge.cpp lines 748-759): under `dataMutex`,
fail if no frame has been published, otherwise increment the reader count and
hand out the buffer reference, its size, and the published dimensions. -/
def acquireLatestFrame (s : CaptureSession) : AcquireResult :=
  if s.latestData = [] then
    { session := s, ok := false, out := Option.none }
  else
    { session := { s with readers := s.readers + 1 }, ok := true,
      out := Option.some (s.latestData, s.latestData.length, s.width, s.height) }

/-- `ReleaseLatestFrame` (WgcBridge.cpp lines 761-765): unconditionally
decrement the reader count. -/
def releaseLatestFrame (s : CaptureSession) : CaptureSession :=
  { s with readers := s.readers - 1 }

/-- A consumer lease operation. -/
inductive LeaseOp where
  | acquire
  | release
  deriving DecidableEq, Repr

/-- Apply one lease operation to the session state. -/
def applyLeaseOp (s : CaptureSession) : LeaseOp → CaptureSession
  | LeaseOp.acquire => (acquireLatestFrame s).session
  | LeaseOp.release => releaseLatestFrame s

/-- Run a sequence of lease operations. -/
def runLeaseOps (s : CaptureSession) : List LeaseOp → CaptureSession
  | [] => s
  | op :: rest => runLeaseOps (applyLeaseOp s op) rest

/-- Number of acquire operations in a sequence. -/
def countAcquires : List LeaseOp → Nat
  | [] => 0
  | LeaseOp.acquire :: rest => countAcquires rest + 1
  | LeaseOp.release :: rest => countAcquires rest

/-- Number of release operations in a sequence. -/
def countReleases : List LeaseOp → Nat
  | [] => 0
  | LeaseOp.acquire :: rest => countReleases rest
  | LeaseOp.release :: rest => countReleases rest + 1

/-- Session used as the concrete counterexample input for the scale-stage
claims: one outstanding reader lease and a (1,1) max bound so that any larger
frame triggers the scaler. -/
def scaleVetoSession : CaptureSession :=
  { initSession with maxWidth := 1, maxHeight := 1, readers := 1 }

/-- Frame environment in which every platform call succeeds and a valid 2x1
frame arrives. -/
def scaleVetoEnv : FrameEnv where
  hasFrame := true
  surfaceOk := true
  texW := 2
  texH := 1
  cropCreateOk := true
  scaledReadbackCreateOk := true
  scaledMapOk := true
  scaledPitch := 4
  scaledData := fun _ => 0
  stagingCreateOk := true
  stagingMapOk := true
  stagingPitch := 8
  stagingData := fun _ => 0

/-- Frame environment delivering a frame whose width exceeds the 8192 safety
ceiling. -/
def invalidDimsEnv : FrameEnv where
  hasFrame := true
  surfaceOk := true
  texW := 9000
  texH := 100
  cropCreateOk := true
  scaledReadbackCreateOk := true
  scaledMapOk := true
  scaledPitch := 4
  scaledData := fun _ => 0
  stagingCreateOk := true
  stagingMapOk := true
  stagingPitch := 8
  stagingData := fun _ => 0

/-- A session holding one published 1x1 frame of four bytes. -/
def publishedSession : CaptureSession :=
  { initSession with latestData := [1, 2, 3, 4], width := 1, height := 1,
                     frameCount := 1 }

lemma ensureCroppedTexture_cases (s : CaptureSession) (cw ch : Int) (ok : Bool) :
    ensureCroppedTexture s cw ch ok = s ∨
    ensureCroppedTexture s cw ch ok =
      { s with croppedTextureValid := true, croppedTextureWidth := cw,
               croppedTextureHeight := ch } := by
  unfold ensureCroppedTexture
  split_ifs <;> simp

lemma ensurePipeline_cases (s : CaptureSession) :
    ensurePipeline s = s ∨ ensurePipeline s = { s with pipelineBuilt := true } := by
  unfold ensurePipeline
  split_ifs <;> simp

lemma ensureScaledTexture_cases (s : CaptureSession) (tw th : Int) :
    ensureScaledTexture s tw th = s ∨
    ensureScaledTexture s tw th =
      { s with scaledTextureValid := true, scaledTextureWidth := tw,
               scaledTextureHeight := th } := by
  unfold ensureScaledTexture
  split_ifs <;> simp

lemma cropStage_session_cases (s : CaptureSession) (w h : Int) (env : FrameEnv) :
    (cropStage s w h env).session = s ∨
    (cropStage s w h env).session =
      { s with croppedTextureValid := true, croppedTextureWidth := s.cropW,
               croppedTextureHeight := s.cropH } := by
  unfold cropStage
  rcases ensureCroppedTexture_cases s s.cropW s.cropH env.cropCreateOk with he | he <;>
    by_cases h1 : 0 < s.cropW ∧ 0 < s.cropH <;>
      simp [h1, he] <;> split_ifs <;> simp

lemma publishExchange_eq (rOpt rLock : Int) (s : CaptureSession) (produced : List Nat)
    (w h : Int) :
    publishExchange rOpt rLock s produced w h =
      if rOpt = 0 ∧ rLock = 0 then
        ({ s with latestData := produced, width := w, height := h,
                  frameCount := s.frameCount + 1 }, s.latestData, true)
      else (s, produced, false) := by
  unfold publishExchange
  split_ifs with h1 h2 h3 <;> simp_all

lemma scalePrefixSession (s : CaptureSession) (tw th : Int) :
    ∃ pb stv stw sth,
      ensureScaledTexture (ensurePipeline s) tw th =
        { s with pipelineBuilt := pb, scaledTextureValid := stv,
                 scaledTextureWidth := stw, scaledTextureHeight := sth } := by
  rcases ensurePipeline_cases s with h1 | h1 <;>
    rcases ensureScaledTexture_cases (ensurePipeline s) tw th with h2 | h2 <;>
      rw [h1] at h2 ⊢ <;> rw [h2]
  · exact ⟨s.pipelineBuilt, s.scaledTextureValid, s.scaledTextureWidth,
      s.scaledTextureHeight, rfl⟩
  · exact ⟨s.pipelineBuilt, true, tw, th, rfl⟩
  · exact ⟨true, s.scaledTextureValid, s.scaledTextureWidth, s.scaledTextureHeight, rfl⟩
  · exact ⟨true, true, tw, th, rfl⟩

lemma generalReadback_spec (s : CaptureSession) (cw ch : Int) (env : FrameEnv) :
    ((generalReadback s cw ch env).session.frameCount =
      if (generalReadback s cw ch env).published then s.frameCount + 1
      else s.frameCount) ∧
    ((generalReadback s cw ch env).session.readers = s.readers) ∧
    ((generalReadback s cw ch env).published = true → s.readers = 0) ∧
    ((generalReadback s cw ch env).published = false →
      (generalReadback s cw ch env).session.latestData = s.latestData ∧
      (generalReadback s cw ch env).session.width = s.width ∧
      (generalReadback s cw ch env).session.height = s.height) := by
  unfold generalReadback generalReadbackCore
  simp only [publishExchange_eq]
  split_ifs <;> simp_all

lemma scaleStage_spec (s : CaptureSession) (cw ch : Int) (env : FrameEnv) :
    ((scaleStage s cw ch env).readbackSucceeded =
      (env.scaledReadbackCreateOk && env.scaledMapOk)) ∧
    ((scaleStage s cw ch env).frameUpdated =
      (env.scaledReadbackCreateOk && env.scaledMapOk && decide (s.readers = 0))) ∧
    ((scaleStage s cw ch env).session.readers = s.readers) ∧
    ((scaleStage s cw ch env).session.frameCount =
      if (scaleStage s cw ch env).frameUpdated then s.frameCount + 1
      else s.frameCount) ∧
    ((scaleStage s cw ch env).frameUpdated = false →
      (scaleStage s cw ch env).session.latestData = s.latestData ∧
      (scaleStage s cw ch env).session.width = s.width ∧
      (scaleStage s cw ch env).session.height = s.height) ∧
    ((scaleStage s cw ch env).session.stagingTextureValid = s.stagingTextureValid) ∧
    ((scaleStage s cw ch env).session.stagingTextureWidth = s.stagingTextureWidth) ∧
    ((scaleStage s cw ch env).session.stagingTextureHeight = s.stagingTextureHeight) := by
  obtain ⟨pb, stv, stw, sth, hpre⟩ := scalePrefixSession s
    (computeTargetDimsFloat s.maxWidth s.maxHeight cw ch).1
    (computeTargetDimsFloat s.maxWidth s.maxHeight cw ch).2
  simp only [scaleStage, hpre, publishExchange_eq]
  by_cases h1 : env.scaledReadbackCreateOk <;> by_cases h2 : env.scaledMapOk <;>
    by_cases h3 : s.readers = 0 <;> simp [h1, h2, h3]

lemma cropStage_preserves (s : CaptureSession) (w h : Int) (env : FrameEnv) :
    (cropStage s w h env).session.latestData = s.latestData ∧
    (cropStage s w h env).session.backBuffer = s.backBuffer ∧
    (cropStage s w h env).session.readers = s.readers ∧
    (cropStage s w h env).session.width = s.width ∧
    (cropStage s w h env).session.height = s.height ∧
    (cropStage s w h env).session.frameCount = s.frameCount ∧
    (cropStage s w h env).session.maxWidth = s.maxWidth ∧
    (cropStage s w h env).session.maxHeight = s.maxHeight ∧
    (cropStage s w h env).session.stagingTextureValid = s.stagingTextureValid ∧
    (cropStage s w h env).session.stagingTextureWidth = s.stagingTextureWidth ∧
    (cropStage s w h env).session.stagingTextureHeight = s.stagingTextureHeight := by
  rcases cropStage_session_cases s w h env with he | he <;> rw [he] <;> simp

lemma onFrameArrivedT_not_accepted (s : CaptureSession) (env : FrameEnv)
    (h : ¬frameAccepted s env) : onFrameArrivedT s env = dropResult s := by
  unfold onFrameArrivedT
  split_ifs with g1 g2 g3 g4 g5 <;>
    first
      | rfl
      | exact absurd
          (⟨g1, g2, g3, by omega, by omega, by omega, by omega⟩ :
            frameAccepted s env) h

lemma onFrameArrivedT_accepted (s : CaptureSession) (env : FrameEnv)
    (h : frameAccepted s env) :
    onFrameArrivedT s env =
      (let cr := cropStage s env.texW env.texH env
       let s1 : CaptureSession := { cr.session with latestGpuTexture := cr.tex }
       if useScaler s1 cr.curW cr.curH then
         let sr := scaleStage s1 cr.curW cr.curH env
         if sr.frameUpdated then
           { session := sr.session, frameUpdated := true,
             scaledReadbackSucceeded := sr.readbackSucceeded,
             ranGeneralReadback := false, published := true }
         else
           let gr := generalReadback sr.session cr.curW cr.curH env
           { session := gr.session, frameUpdated := false,
             scaledReadbackSucceeded := sr.readbackSucceeded,
             ranGeneralReadback := true, published := gr.published }
       else
         let gr := generalReadback s1 cr.curW cr.curH env
         { session := gr.session, frameUpdated := false,
           scaledReadbackSucceeded := false,
           ranGeneralReadback := true, published := gr.published }) := by
  obtain ⟨h1, h2, h3, h4, h5, h6, h7⟩ := h
  unfold onFrameArrivedT
  rw [if_neg h1, if_neg (by simp [h2]), if_neg (by simp [h3]),
    if_neg (by omega), if_neg (by omega)]

lemma onFrameArrivedT_spec (s : CaptureSession) (env : FrameEnv) :
    ((onFrameArrivedT s env).frameUpdated =
      ((onFrameArrivedT s env).scaledReadbackSucceeded && decide (s.readers = 0))) ∧
    ((onFrameArrivedT s env).ranGeneralReadback =
      (decide (frameAccepted s env) && !(onFrameArrivedT s env).frameUpdated)) ∧
    ((onFrameArrivedT s env).session.frameCount =
      if (onFrameArrivedT s env).published then s.frameCount + 1 else s.frameCount) ∧
    ((onFrameArrivedT s env).session.readers = s.readers) ∧
    (0 < s.readers → (onFrameArrivedT s env).session.latestData = s.latestData ∧
      (onFrameArrivedT s env).published = false) := by
  by_cases ha : frameAccepted s env
  · rw [onFrameArrivedT_accepted s env ha]
    obtain ⟨cLatest, cBack, cReaders, cWidth, cHeight, cFrame, cMaxW, cMaxH, cStV,
      cStW, cStH⟩ := cropStage_preserves s env.texW env.texH env
    generalize hCR : cropStage s env.texW env.texH env = cr at *
    obtain ⟨sRead, sFu, sReaders, sFrame, sNoPub, sStV, sStW, sStH⟩ :=
      scaleStage_spec { cr.session with latestGpuTexture := cr.tex } cr.curW cr.curH env
    obtain ⟨gFrame, gReaders, gPubZero, gNoPub⟩ :=
      generalReadback_spec
        (scaleStage { cr.session with latestGpuTexture := cr.tex } cr.curW cr.curH env).session
        cr.curW cr.curH env
    obtain ⟨gFrame2, gReaders2, gPubZero2, gNoPub2⟩ :=
      generalReadback_spec { cr.session with latestGpuTexture := cr.tex }
        cr.curW cr.curH env
    by_cases hu : useScaler { cr.session with latestGpuTexture := cr.tex } cr.curW cr.curH
    · by_cases hf :
        (scaleStage { cr.session with latestGpuTexture := cr.tex } cr.curW cr.curH env).frameUpdated
      · rw [hf] at sFu
        replace sFu := sFu.symm
        simp only [Bool.and_eq_true, decide_eq_true_eq] at sFu
        obtain ⟨⟨e1, e2⟩, e3⟩ := sFu
        have hr0 : s.readers = 0 := by rw [← cReaders]; simpa using e3
        have hFrame : (scaleStage { cr.session with latestGpuTexture := cr.tex }
            cr.curW cr.curH env).session.frameCount = s.frameCount + 1 := by
          rw [sFrame, if_pos hf]
          simp [cFrame]
        refine ⟨?_, ?_, ?_, ?_, ?_⟩
        · simp only [hu, if_true, hf]
          rw [sRead]
          simp [e1, e2, hr0]
        · simp only [hu, if_true, hf]
          simp
        · simp only [hu, if_true, hf]
          rw [hFrame]
        · simp only [hu, if_true, hf]
          rw [sReaders]
          simpa using cReaders
        · intro hrpos
          omega
      · have hfu : (scaleStage { cr.session with latestGpuTexture := cr.tex }
            cr.curW cr.curH env).frameUpdated = false := by simpa using hf
        rw [hfu] at sFu
        obtain ⟨sLatest, sWidth, sHeight⟩ := sNoPub hfu
        have hFrame : (scaleStage { cr.session with latestGpuTexture := cr.tex }
            cr.curW cr.curH env).session.frameCount = s.frameCount := by
          rw [sFrame, if_neg (by simp [hfu])]
          simp [cFrame]
        have hReaders : (scaleStage { cr.session with latestGpuTexture := cr.tex }
            cr.curW cr.curH env).session.readers = s.readers := by
          rw [sReaders]; simpa using cReaders
        constructor
        · have hdec : decide (({ cr.session with latestGpuTexture := cr.tex } :
              CaptureSession).readers = 0) = decide (s.readers = 0) := by
            simp [cReaders]
          rw [hdec] at sFu
          simp only [hu, if_true, hfu]
          rw [sRead]
          exact sFu
        constructor
        · simp [hu, hfu, ha]
        refine ⟨?_, ?_, ?_⟩
        · simp only [hu, if_true, hfu, Bool.false_eq_true, if_false]
          rw [gFrame, hFrame]
        · simp only [hu, if_true, hfu, Bool.false_eq_true, if_false]
          rw [gReaders, hReaders]
        · intro hrpos
          have hpub : (generalReadback (scaleStage { cr.session with
              latestGpuTexture := cr.tex } cr.curW cr.curH env).session
              cr.curW cr.curH env).published = false := by
            by_contra hc
            have := gPubZero (by simpa using hc)
            rw [hReaders] at this
            omega
          obtain ⟨gLatest, _, _⟩ := gNoPub hpub
          simp only [hu, if_true, hfu, Bool.false_eq_true, if_false]
          refine ⟨?_, hpub⟩
          rw [gLatest, sLatest]
          simpa using cLatest
    · have hReaders2 : ({ cr.session with latestGpuTexture := cr.tex } :
          CaptureSession).readers = s.readers := by simpa using cReaders
      constructor
      · simp [hu]
      constructor
      · simp [hu, ha]
      refine ⟨?_, ?_, ?_⟩
      · simp only [hu, if_false]
        rw [gFrame2]
        simp [cFrame]
      · simp only [hu, if_false]
        rw [gReaders2, hReaders2]
      · intro hrpos
        have hpub : (generalReadback { cr.session with latestGpuTexture := cr.tex }
            cr.curW cr.curH env).published = false := by
          by_contra hc
          have := gPubZero2 (by simpa using hc)
          rw [hReaders2] at this
          omega
        obtain ⟨gLatest, _, _⟩ := gNoPub2 hpub
        simp only [hu, if_false]
        refine ⟨?_, hpub⟩
        rw [gLatest]
        simpa using cLatest
  · rw [onFrameArrivedT_not_accepted s env ha]
    simp [dropResult, ha]

lemma copyPixels_length (w h pitch : Nat) (src : Nat → Nat) :
    (copyPixels w h pitch src).length = w * 4 * h := by
  simp only [copyPixels]
  split_ifs <;> simp [Nat.mul_comm, Nat.mul_assoc]

lemma copyPixels_get (w h pitch : Nat) (src : Nat → Nat) (hw : 0 < w)
    (y j : Nat) (hy : y < h) (hj : j < w * 4) :
    (copyPixels w h pitch src)[y * (w * 4) + j]? = Option.some (src (y * pitch + j)) := by
  have hrs : 0 < w * 4 := by omega
  have hidx : y * (w * 4) + j < w * 4 * h := by
    have h1 : y * (w * 4) + j < (y + 1) * (w * 4) := by
      have : (y + 1) * (w * 4) = y * (w * 4) + w * 4 := by ring
      omega
    have h2 : (y + 1) * (w * 4) ≤ h * (w * 4) :=
      Nat.mul_le_mul_right _ (Nat.succ_le_of_lt hy)
    have h3 : h * (w * 4) = w * 4 * h := Nat.mul_comm _ _
    omega
  have harith : y * (w * 4) + j = j + (w * 4) * y := by ring
  simp only [copyPixels]
  split_ifs with hp
  · rw [List.getElem?_map]
    rw [List.getElem?_range hidx]
    simp [hp]
  · rw [List.getElem?_map]
    rw [List.getElem?_range hidx]
    simp only [Option.map_some']
    congr 1
    rw [harith, Nat.add_mul_div_left _ _ hrs, Nat.div_eq_of_lt hj,
      Nat.add_mul_mod_self_left, Nat.mod_eq_of_lt hj]
    ring_nf

lemma applyLeaseOp_latestData (s : CaptureSession) (op : LeaseOp) :
    (applyLeaseOp s op).latestData = s.latestData := by
  cases op <;> simp only [applyLeaseOp, acquireLatestFrame, releaseLatestFrame] <;>
    split_ifs <;> simp

lemma runLeaseOps_latestData (ops : List LeaseOp) :
    ∀ s : CaptureSession, (runLeaseOps s ops).latestData = s.latestData := by
  induction ops with
  | nil => intro s; rfl
  | cons op rest ih =>
    intro s
    rw [runLeaseOps, ih, applyLeaseOp_latestData]

lemma runLeaseOps_readers (ops : List LeaseOp) :
    ∀ s : CaptureSession, s.latestData ≠ [] →
      (runLeaseOps s ops).readers =
        s.readers + (countAcquires ops : Int) - (countReleases ops : Int) := by
  induction ops with
  | nil => intro s _; simp [runLeaseOps, countAcquires, countReleases]
  | cons op rest ih =>
    intro s hne
    rw [runLeaseOps]
    have hpres : (applyLeaseOp s op).latestData = s.latestData :=
      applyLeaseOp_latestData s op
    rw [ih _ (by rw [hpres]; exact hne)]
    cases op <;>
      simp [applyLeaseOp, acquireLatestFrame, releaseLatestFrame, hne,
        countAcquires, countReleases] <;> push_cast <;> ring

lemma log2_eq {x : ℚ} {e : ℤ} (hx : 0 < x) (he1 : (2:ℚ) ^ e ≤ x)
    (he2 : x < (2:ℚ) ^ (e + 1)) : Int.log 2 x = e := by
  have h1 : e ≤ Int.log 2 x := by
    rw [← Int.zpow_le_iff_le_log one_lt_two hx]
    exact_mod_cast he1
  have h2 : Int.log 2 x < e + 1 := by
    rw [← Int.lt_zpow_iff_log_lt one_lt_two hx]
    exact_mod_cast he2
  omega

lemma fl32_spec (x : ℚ) (hx : 0 < x) :
    ∃ r : ℤ, fl32 x = (r : ℚ) * 2 ^ (Int.log 2 x - 23) ∧
      x * 2 ^ (23 - Int.log 2 x) - 1 / 2 ≤ (r : ℚ) ∧
      (r : ℚ) ≤ x * 2 ^ (23 - Int.log 2 x) + 1 / 2 := by
  simp only [fl32, if_pos hx]
  set m := x * (2:ℚ) ^ (23 - Int.log 2 x) with hm
  set f := ⌊m⌋ with hf
  refine ⟨if m - f < 1 / 2 then f else if 1 / 2 < m - f then f + 1
    else if Even f then f else f + 1, rfl, ?_, ?_⟩ <;>
    have h1 := Int.floor_le m <;> have h2 := Int.lt_floor_add_one m <;>
      split_ifs <;> push_cast <;> linarith

lemma fl32_ub (x : ℚ) (hx : 0 < x) : fl32 x ≤ x * (1 + 1 / 2 ^ 24) := by
  obtain ⟨r, hr, _, hhi⟩ := fl32_spec x hx
  set e := Int.log 2 x with he
  have he1 : (2:ℚ) ^ e ≤ x := by
    rw [he]
    exact_mod_cast Int.zpow_log_le_self one_lt_two hx
  have hpow : (0:ℚ) < (2:ℚ) ^ (e - 23) := zpow_pos (by norm_num) _
  have hcancel : (2:ℚ) ^ (23 - e) * (2:ℚ) ^ (e - 23) = 1 := by
    rw [← zpow_add₀ (two_ne_zero : (2:ℚ) ≠ 0)]
    norm_num
  have hhalf : (2:ℚ) ^ (e - 23) / 2 ≤ x / 2 ^ 24 := by
    have hs : (2:ℚ) ^ (e - 23) / 2 = 2 ^ e * ((1:ℚ) / 2 ^ 24) := by
      rw [zpow_sub₀ (two_ne_zero : (2:ℚ) ≠ 0), div_div, div_eq_mul_one_div]
      congr 2
      norm_num
    rw [hs, div_eq_mul_one_div x]
    exact mul_le_mul_of_nonneg_right he1 (by norm_num)
  rw [hr]
  have step : (r : ℚ) * 2 ^ (e - 23) ≤ (x * 2 ^ (23 - e) + 1 / 2) * 2 ^ (e - 23) :=
    mul_le_mul_of_nonneg_right hhi hpow.le
  have expand : (x * (2:ℚ) ^ (23 - e) + 1 / 2) * 2 ^ (e - 23) =
      x + 2 ^ (e - 23) / 2 := by
    rw [add_mul, mul_assoc, hcancel, mul_one]
    ring
  rw [expand] at step
  calc (r : ℚ) * 2 ^ (e - 23) ≤ x + 2 ^ (e - 23) / 2 := step
    _ ≤ x + x / 2 ^ 24 := by linarith
    _ = x * (1 + 1 / 2 ^ 24) := by ring

lemma fl32_lb (x : ℚ) (hx : 0 < x) : x * (1 - 1 / 2 ^ 24) ≤ fl32 x := by
  obtain ⟨r, hr, hlo, _⟩ := fl32_spec x hx
  set e := Int.log 2 x with he
  have he1 : (2:ℚ) ^ e ≤ x := by
    rw [he]
    exact_mod_cast Int.zpow_log_le_self one_lt_two hx
  have hpow : (0:ℚ) < (2:ℚ) ^ (e - 23) := zpow_pos (by norm_num) _
  have hcancel : (2:ℚ) ^ (23 - e) * (2:ℚ) ^ (e - 23) = 1 := by
    rw [← zpow_add₀ (two_ne_zero : (2:ℚ) ≠ 0)]
    norm_num
  have hhalf : (2:ℚ) ^ (e - 23) / 2 ≤ x / 2 ^ 24 := by
    have hs : (2:ℚ) ^ (e - 23) / 2 = 2 ^ e * ((1:ℚ) / 2 ^ 24) := by
      rw [zpow_sub₀ (two_ne_zero : (2:ℚ) ≠ 0), div_div, div_eq_mul_one_div]
      congr 2
      norm_num
    rw [hs, div_eq_mul_one_div x]
    exact mul_le_mul_of_nonneg_right he1 (by norm_num)
  rw [hr]
  have step : (x * 2 ^ (23 - e) - 1 / 2) * 2 ^ (e - 23) ≤ (r : ℚ) * 2 ^ (e - 23) :=
    mul_le_mul_of_nonneg_right hlo hpow.le
  have expand : (x * (2:ℚ) ^ (23 - e) - 1 / 2) * 2 ^ (e - 23) =
      x - 2 ^ (e - 23) / 2 := by
    rw [sub_mul, mul_assoc, hcancel, mul_one]
    ring
  rw [expand] at step
  calc x * (1 - 1 / 2 ^ 24) = x - x / 2 ^ 24 := by ring
    _ ≤ x - 2 ^ (e - 23) / 2 := by linarith
    _ ≤ (r : ℚ) * 2 ^ (e - 23) := step

lemma fl32_pos (x : ℚ) (hx : 0 < x) : 0 < fl32 x :=
  lt_of_lt_of_le (by positivity) (fl32_lb x hx)

lemma fl32_round_down (x : ℚ) (e f : ℤ) (hx : 0 < x)
    (he1 : (2:ℚ) ^ e ≤ x) (he2 : x < (2:ℚ) ^ (e + 1))
    (hf1 : (f : ℚ) ≤ x * (2:ℚ) ^ (23 - e))
    (hf2 : x * (2:ℚ) ^ (23 - e) < (f : ℚ) + 1 / 2) :
    fl32 x = (f : ℚ) * (2:ℚ) ^ (e - 23) := by
  have hlog : Int.log 2 x = e := log2_eq hx he1 he2
  simp only [fl32, if_pos hx, hlog]
  have hfl : ⌊x * (2:ℚ) ^ (23 - e)⌋ = f := by
    rw [Int.floor_eq_iff]
    exact ⟨hf1, by push_cast; linarith⟩
  rw [hfl, if_pos (by push_cast; linarith)]

lemma ctdf_scenario : computeTargetDimsFloat 1920 1080 3840 2160 = (1920, 1080) := by
  have h1 : fl32 (((1920:ℤ):ℚ) / ((3840:ℤ):ℚ)) = 1 / 2 := by
    have := fl32_round_down (((1920:ℤ):ℚ) / ((3840:ℤ):ℚ)) (-1) 8388608
      (by norm_num) (by norm_num) (by norm_num) (by norm_num) (by norm_num)
    rw [this]
    norm_num
  have h2 : fl32 (((1080:ℤ):ℚ) / ((2160:ℤ):ℚ)) = 1 / 2 := by
    have := fl32_round_down (((1080:ℤ):ℚ) / ((2160:ℤ):ℚ)) (-1) 8388608
      (by norm_num) (by norm_num) (by norm_num) (by norm_num) (by norm_num)
    rw [this]
    norm_num
  have h3 : fl32 (((3840:ℤ):ℚ) * ((1:ℚ) / 2)) = 1920 := by
    have := fl32_round_down (((3840:ℤ):ℚ) * ((1:ℚ) / 2)) 10 15728640
      (by norm_num) (by norm_num) (by norm_num) (by norm_num) (by norm_num)
    rw [this]
    norm_num
  have h4 : fl32 (((2160:ℤ):ℚ) * ((1:ℚ) / 2)) = 1080 := by
    have := fl32_round_down (((2160:ℤ):ℚ) * ((1:ℚ) / 2)) 10 8847360
      (by norm_num) (by norm_num) (by norm_num) (by norm_num) (by norm_num)
    rw [this]
    norm_num
  simp only [computeTargetDimsFloat, h1, h2, min_self, h3, h4]
  norm_num

lemma ctdf_undershoot : computeTargetDimsFloat 2 3 41 2 = (1, 1) := by
  have h1 : fl32 (((2:ℤ):ℚ) / ((41:ℤ):ℚ)) = 3273603 / 67108864 := by
    have := fl32_round_down (((2:ℤ):ℚ) / ((41:ℤ):ℚ)) (-5) 13094412
      (by norm_num) (by norm_num) (by norm_num) (by norm_num) (by norm_num)
    rw [this]
    norm_num
  have h2 : fl32 (((3:ℤ):ℚ) / ((2:ℤ):ℚ)) = 3 / 2 := by
    have := fl32_round_down (((3:ℤ):ℚ) / ((2:ℤ):ℚ)) 0 12582912
      (by norm_num) (by norm_num) (by norm_num) (by norm_num) (by norm_num)
    rw [this]
    norm_num
  have h3 : fl32 (((41:ℤ):ℚ) * ((3273603:ℚ) / 67108864)) = 16777215 / 8388608 := by
    have := fl32_round_down (((41:ℤ):ℚ) * ((3273603:ℚ) / 67108864)) 0 16777215
      (by norm_num) (by norm_num) (by norm_num) (by norm_num) (by norm_num)
    rw [this]
    norm_num
  have h4 : fl32 (((2:ℤ):ℚ) * ((3273603:ℚ) / 67108864)) = 3273603 / 33554432 := by
    have := fl32_round_down (((2:ℤ):ℚ) * ((3273603:ℚ) / 67108864)) (-4) 13094412
      (by norm_num) (by norm_num) (by norm_num) (by norm_num) (by norm_num)
    rw [this]
    norm_num
  simp only [computeTargetDimsFloat, h1, h2]
  rw [min_eq_left (by norm_num)]
  rw [h3, h4]
  norm_num

lemma computeTargetDimsFloat_bounds (maxW maxH curW curH : Int)
    (hmw : 0 < maxW) (hmw8 : maxW ≤ 8192) (hmh : 0 < maxH) (hmh8 : maxH ≤ 8192)
    (hcw : 0 < curW) (hch : 0 < curH) :
    (computeTargetDimsFloat maxW maxH curW curH).1 ≤ maxW ∧
    (computeTargetDimsFloat maxW maxH curW curH).2 ≤ maxH ∧
    (maxW - 1 ≤ (computeTargetDimsFloat maxW maxH curW curH).1 ∨
     maxH - 1 ≤ (computeTargetDimsFloat maxW maxH curW curH).2) := by
  have hcwQ : (0:ℚ) < (curW : ℚ) := by exact_mod_cast hcw
  have hchQ : (0:ℚ) < (curH : ℚ) := by exact_mod_cast hch
  have hmwQ : (0:ℚ) < (maxW : ℚ) := by exact_mod_cast hmw
  have hmhQ : (0:ℚ) < (maxH : ℚ) := by exact_mod_cast hmh
  have hmwQ8 : (maxW : ℚ) ≤ 8192 := by exact_mod_cast hmw8
  have hmhQ8 : (maxH : ℚ) ≤ 8192 := by exact_mod_cast hmh8
  set a : ℚ := (maxW : ℚ) / (curW : ℚ) with ha_def
  set b : ℚ := (maxH : ℚ) / (curH : ℚ) with hb_def
  have ha : 0 < a := div_pos hmwQ hcwQ
  have hb : 0 < b := div_pos hmhQ hchQ
  have hsW : 0 < fl32 a := fl32_pos a ha
  have hsH : 0 < fl32 b := fl32_pos b hb
  have hscale : 0 < min (fl32 a) (fl32 b) := lt_min hsW hsH
  have hWexact : (curW : ℚ) * a = (maxW : ℚ) := by
    rw [ha_def]
    field_simp
  have hHexact : (curH : ℚ) * b = (maxH : ℚ) := by
    rw [hb_def]
    field_simp
  -- upper bound for the first component
  have hup1 : fl32 ((curW : ℚ) * min (fl32 a) (fl32 b)) < (maxW : ℚ) + 1 := by
    have s1 : (curW : ℚ) * min (fl32 a) (fl32 b) ≤ (maxW : ℚ) * (1 + 1 / 2 ^ 24) := by
      calc (curW : ℚ) * min (fl32 a) (fl32 b)
          ≤ (curW : ℚ) * fl32 a :=
            mul_le_mul_of_nonneg_left (min_le_left _ _) hcwQ.le
        _ ≤ (curW : ℚ) * (a * (1 + 1 / 2 ^ 24)) :=
            mul_le_mul_of_nonneg_left (fl32_ub a ha) hcwQ.le
        _ = ((curW : ℚ) * a) * (1 + 1 / 2 ^ 24) := by ring
        _ = (maxW : ℚ) * (1 + 1 / 2 ^ 24) := by rw [hWexact]
    have s2 : fl32 ((curW : ℚ) * min (fl32 a) (fl32 b)) ≤
        ((curW : ℚ) * min (fl32 a) (fl32 b)) * (1 + 1 / 2 ^ 24) :=
      fl32_ub _ (mul_pos hcwQ hscale)
    have s3 : ((curW : ℚ) * min (fl32 a) (fl32 b)) * (1 + 1 / 2 ^ 24) ≤
        (maxW : ℚ) * (1 + 1 / 2 ^ 24) * (1 + 1 / 2 ^ 24) :=
      mul_le_mul_of_nonneg_right s1 (by norm_num)
    have s4 : (maxW : ℚ) * (1 + 1 / 2 ^ 24) * (1 + 1 / 2 ^ 24) < (maxW : ℚ) + 1 := by
      have e1 : (maxW : ℚ) * (1 + 1 / 2 ^ 24) * (1 + 1 / 2 ^ 24) =
          (maxW : ℚ) + (maxW : ℚ) * (2 / 2 ^ 24 + 1 / 2 ^ 48) := by ring
      have e2 : (maxW : ℚ) * (2 / 2 ^ 24 + 1 / 2 ^ 48) ≤
          8192 * (2 / 2 ^ 24 + 1 / 2 ^ 48) :=
        mul_le_mul_of_nonneg_right hmwQ8 (by norm_num)
      have e3 : (8192 : ℚ) * (2 / 2 ^ 24 + 1 / 2 ^ 48) < 1 := by norm_num
      linarith
    linarith
  -- upper bound for the second component
  have hup2 : fl32 ((curH : ℚ) * min (fl32 a) (fl32 b)) < (maxH : ℚ) + 1 := by
    have s1 : (curH : ℚ) * min (fl32 a) (fl32 b) ≤ (maxH : ℚ) * (1 + 1 / 2 ^ 24) := by
      calc (curH : ℚ) * min (fl32 a) (fl32 b)
          ≤ (curH : ℚ) * fl32 b :=
            mul_le_mul_of_nonneg_left (min_le_right _ _) hchQ.le
        _ ≤ (curH : ℚ) * (b * (1 + 1 / 2 ^ 24)) :=
            mul_le_mul_of_nonneg_left (fl32_ub b hb) hchQ.le
        _ = ((curH : ℚ) * b) * (1 + 1 / 2 ^ 24) := by ring
        _ = (maxH : ℚ) * (1 + 1 / 2 ^ 24) := by rw [hHexact]
    have s2 : fl32 ((curH : ℚ) * min (fl32 a) (fl32 b)) ≤
        ((curH : ℚ) * min (fl32 a) (fl32 b)) * (1 + 1 / 2 ^ 24) :=
      fl32_ub _ (mul_pos hchQ hscale)
    have s3 : ((curH : ℚ) * min (fl32 a) (fl32 b)) * (1 + 1 / 2 ^ 24) ≤
        (maxH : ℚ) * (1 + 1 / 2 ^ 24) * (1 + 1 / 2 ^ 24) :=
      mul_le_mul_of_nonneg_right s1 (by norm_num)
    have s4 : (maxH : ℚ) * (1 + 1 / 2 ^ 24) * (1 + 1 / 2 ^ 24) < (maxH : ℚ) + 1 := by
      have e1 : (maxH : ℚ) * (1 + 1 / 2 ^ 24) * (1 + 1 / 2 ^ 24) =
          (maxH : ℚ) + (maxH : ℚ) * (2 / 2 ^ 24 + 1 / 2 ^ 48) := by ring
      have e2 : (maxH : ℚ) * (2 / 2 ^ 24 + 1 / 2 ^ 48) ≤
          8192 * (2 / 2 ^ 24 + 1 / 2 ^ 48) :=
        mul_le_mul_of_nonneg_right hmhQ8 (by norm_num)
      have e3 : (8192 : ℚ) * (2 / 2 ^ 24 + 1 / 2 ^ 48) < 1 := by norm_num
      linarith
    linarith
  have hfloor1 : ⌊fl32 ((curW : ℚ) * min (fl32 a) (fl32 b))⌋ ≤ maxW := by
    have : fl32 ((curW : ℚ) * min (fl32 a) (fl32 b)) < ((maxW + 1 : ℤ) : ℚ) := by
      push_cast
      linarith
    have := Int.floor_lt.mpr this
    omega
  have hfloor2 : ⌊fl32 ((curH : ℚ) * min (fl32 a) (fl32 b))⌋ ≤ maxH := by
    have : fl32 ((curH : ℚ) * min (fl32 a) (fl32 b)) < ((maxH + 1 : ℤ) : ℚ) := by
      push_cast
      linarith
    have := Int.floor_lt.mpr this
    omega
  refine ⟨?_, ?_, ?_⟩
  · simp only [computeTargetDimsFloat]
    exact max_le (by omega) hfloor1
  · simp only [computeTargetDimsFloat]
    exact max_le (by omega) hfloor2
  · rcases le_total (fl32 a) (fl32 b) with hab | hab
    · left
      have hmin : min (fl32 a) (fl32 b) = fl32 a := min_eq_left hab
      have l1 : a * (1 - 1 / 2 ^ 24) ≤ fl32 a := fl32_lb a ha
      have l2 : (maxW : ℚ) * (1 - 1 / 2 ^ 24) ≤ (curW : ℚ) * fl32 a := by
        calc (maxW : ℚ) * (1 - 1 / 2 ^ 24)
            = ((curW : ℚ) * a) * (1 - 1 / 2 ^ 24) := by rw [hWexact]
          _ = (curW : ℚ) * (a * (1 - 1 / 2 ^ 24)) := by ring
          _ ≤ (curW : ℚ) * fl32 a := mul_le_mul_of_nonneg_left l1 hcwQ.le
      have l3 : ((curW : ℚ) * fl32 a) * (1 - 1 / 2 ^ 24) ≤
          fl32 ((curW : ℚ) * fl32 a) := fl32_lb _ (mul_pos hcwQ hsW)
      have l4 : (maxW : ℚ) * (1 - 1 / 2 ^ 24) * (1 - 1 / 2 ^ 24) ≤
          ((curW : ℚ) * fl32 a) * (1 - 1 / 2 ^ 24) :=
        mul_le_mul_of_nonneg_right l2 (by norm_num)
      have l5 : (maxW : ℚ) - 1 < (maxW : ℚ) * (1 - 1 / 2 ^ 24) * (1 - 1 / 2 ^ 24) := by
        have e1 : (maxW : ℚ) * (1 - 1 / 2 ^ 24) * (1 - 1 / 2 ^ 24) =
            (maxW : ℚ) - (maxW : ℚ) * (2 / 2 ^ 24 - 1 / 2 ^ 48) := by ring
        have e2 : (maxW : ℚ) * (2 / 2 ^ 24 - 1 / 2 ^ 48) ≤
            8192 * (2 / 2 ^ 24 - 1 / 2 ^ 48) :=
          mul_le_mul_of_nonneg_right hmwQ8 (by norm_num)
        have e3 : (8192 : ℚ) * (2 / 2 ^ 24 - 1 / 2 ^ 48) < 1 := by norm_num
        linarith
      have hge : ((maxW - 1 : ℤ) : ℚ) ≤ fl32 ((curW : ℚ) * min (fl32 a) (fl32 b)) := by
        rw [hmin]
        push_cast
        linarith
      have hfl := Int.le_floor.mpr hge
      simp only [computeTargetDimsFloat]
      rw [← ha_def, ← hb_def]
      have hmax : ⌊fl32 ((curW : ℚ) * min (fl32 a) (fl32 b))⌋ ≤
          max 1 ⌊fl32 ((curW : ℚ) * min (fl32 a) (fl32 b))⌋ := le_max_right _ _
      have : (maxW - 1 : ℤ) ≤ ⌊fl32 ((curW : ℚ) * min (fl32 a) (fl32 b))⌋ := hfl
      omega
    · right
      have hmin : min (fl32 a) (fl32 b) = fl32 b := min_eq_right hab
      have l1 : b * (1 - 1 / 2 ^ 24) ≤ fl32 b := fl32_lb b hb
      have l2 : (maxH : ℚ) * (1 - 1 / 2 ^ 24) ≤ (curH : ℚ) * fl32 b := by
        calc (maxH : ℚ) * (1 - 1 / 2 ^ 24)
            = ((curH : ℚ) * b) * (1 - 1 / 2 ^ 24) := by rw [hHexact]
          _ = (curH : ℚ) * (b * (1 - 1 / 2 ^ 24)) := by ring
          _ ≤ (curH : ℚ) * fl32 b := mul_le_mul_of_nonneg_left l1 hchQ.le
      have l3 : ((curH : ℚ) * fl32 b) * (1 - 1 / 2 ^ 24) ≤
          fl32 ((curH : ℚ) * fl32 b) := fl32_lb _ (mul_pos hchQ hsH)
      have l4 : (maxH : ℚ) * (1 - 1 / 2 ^ 24) * (1 - 1 / 2 ^ 24) ≤
          ((curH : ℚ) * fl32 b) * (1 - 1 / 2 ^ 24) :=
        mul_le_mul_of_nonneg_right l2 (by norm_num)
      have l5 : (maxH : ℚ) - 1 < (maxH : ℚ) * (1 - 1 / 2 ^ 24) * (1 - 1 / 2 ^ 24) := by
        have e1 : (maxH : ℚ) * (1 - 1 / 2 ^ 24) * (1 - 1 / 2 ^ 24) =
            (maxH : ℚ) - (maxH : ℚ) * (2 / 2 ^ 24 - 1 / 2 ^ 48) := by ring
        have e2 : (maxH : ℚ) * (2 / 2 ^ 24 - 1 / 2 ^ 48) ≤
            8192 * (2 / 2 ^ 24 - 1 / 2 ^ 48) :=
          mul_le_mul_of_nonneg_right hmhQ8 (by norm_num)
        have e3 : (8192 : ℚ) * (2 / 2 ^ 24 - 1 / 2 ^ 48) < 1 := by norm_num
        linarith
      have hge : ((maxH - 1 : ℤ) : ℚ) ≤ fl32 ((curH : ℚ) * min (fl32 a) (fl32 b)) := by
        rw [hmin]
        push_cast
        linarith
      have hfl := Int.le_floor.mpr hge
      simp only [computeTargetDimsFloat]
      rw [← ha_def, ← hb_def]
      have hmax : ⌊fl32 ((curH : ℚ) * min (fl32 a) (fl32 b))⌋ ≤
          max 1 ⌊fl32 ((curH : ℚ) * min (fl32 a) (fl32 b))⌋ := le_max_right _ _
      have : (maxH - 1 : ℤ) ≤ ⌊fl32 ((curH : ℚ) * min (fl32 a) (fl32 b))⌋ := hfl
      omega

/-- C1: the published latest buffer is replaced (swapped with the freshly
produced buffer) only when the reader count is zero at the instant of
replacement: the publish exchange checks the optimistically read count and the
count re-read under the mutex, and performs the swap together with the
width/height update and the counter increment exactly when both are zero;
otherwise the state is unchanged and the frame is dropped.  Consequently an
`OnFrameArrived` invocation on a session with a positive reader count leaves
the latest buffer untouched and publishes nothing. -/
theorem publish_only_when_reader_count_zero :
    (∀ (rOpt rLock : Int) (s : CaptureSession) (produced : List Nat) (w h : Int),
      publishExchange rOpt rLock s produced w h =
        if rOpt = 0 ∧ rLock = 0 then
          ({ s with latestData := produced, width := w, height := h,
                    frameCount := s.frameCount + 1 }, s.latestData, true)
        else (s, produced, false)) ∧
    (∀ (rOpt rLock : Int) (s : CaptureSession) (produced : List Nat) (w h : Int),
      0 < rLock →
        (publishExchange rOpt rLock s produced w h).1 = s ∧
        (publishExchange rOpt rLock s produced w h).2.2 = false) ∧
    (∀ (s : CaptureSession) (env : FrameEnv), 0 < s.readers →
      (onFrameArrived s env).latestData = s.latestData ∧
      (onFrameArrivedT s env).published = false) := by
  refine ⟨publishExchange_eq, ?_, ?_⟩
  · intro rOpt rLock s produced w h hpos
    rw [publishExchange_eq, if_neg (by omega)]
    exact ⟨rfl, rfl⟩
  · intro s env hpos
    obtain ⟨_, _, _, _, h5⟩ := onFrameArrivedT_spec s env
    exact h5 hpos

/-- Witness for C1 at a concrete input: with an under-lock reader count of 1
the publish exchange leaves the session unchanged. -/
theorem publish_only_when_reader_count_zero_witness :
    0 < (1 : Int) ∧ (publishExchange 0 1 initSession [0] 0 0).1 = initSession :=
  ⟨by decide,
   (publish_only_when_reader_count_zero.2.1 0 1 initSession [0] 0 0 (by decide)).1⟩

/-- C2: the frame counter increases by exactly one on every invocation that
publishes (in whichever path the publish happened), is unchanged when the frame
is dropped, never decreases, and the status call returns it for a non-null
handle. -/
theorem frame_counter_steps_by_publish :
    ∀ (s : CaptureSession) (env : FrameEnv),
      ((onFrameArrived s env).frameCount =
        if (onFrameArrivedT s env).published then s.frameCount + 1
        else s.frameCount) ∧
      s.frameCount ≤ (onFrameArrived s env).frameCount ∧
      ∀ t : CaptureSession, getCaptureStatus (Option.some t) = t.frameCount := by
  intro s env
  obtain ⟨_, _, h3, _, _⟩ := onFrameArrivedT_spec s env
  refine ⟨h3, ?_, fun t => rfl⟩
  unfold onFrameArrived
  rw [h3]
  split_ifs <;> omega

/-- C3 counterexample: with one outstanding reader lease, the scale stage's own
readback succeeds, yet the `frameUpdated` flag is NOT set (it is set only
inside a successful publish exchange) and the general readback stage still
executes — contradicting the claim that a successful scaled readback alone sets
the flag so that the general readback stage is skipped. -/
theorem scaled_readback_success_without_flag :
    (onFrameArrivedT scaleVetoSession scaleVetoEnv).scaledReadbackSucceeded = true ∧
    (onFrameArrivedT scaleVetoSession scaleVetoEnv).frameUpdated = false ∧
    (onFrameArrivedT scaleVetoSession scaleVetoEnv).ranGeneralReadback = true := by
  decide

/-- C3 amended: the `frameUpdated` flag is set exactly when the scale stage's
own readback succeeded AND the reader count was zero so that the publish
exchange went through; the general readback stage executes exactly on the
accepted frames for which the flag was not set — that is, when no scaling was
needed, when scaling or its readback failed, or when the scaled publish was
vetoed by outstanding readers. -/
theorem frame_updated_iff_scaled_publish :
    ∀ (s : CaptureSession) (env : FrameEnv),
      ((onFrameArrivedT s env).frameUpdated =
        ((onFrameArrivedT s env).scaledReadbackSucceeded &&
          decide (s.readers = 0))) ∧
      ((onFrameArrivedT s env).ranGeneralReadback =
        (decide (frameAccepted s env) && !(onFrameArrivedT s env).frameUpdated)) := by
  intro s env
  obtain ⟨h1, h2, _, _, _⟩ := onFrameArrivedT_spec s env
  exact ⟨h1, h2⟩

/-- C4 counterexample: the code truncates `current * scale` toward zero (the C
`(int)` cast) while the claim's formula rounds; at a 4x3 source with max bound
(2,2) the code yields 2x1 where the claimed formula yields 2x2. -/
theorem target_dims_truncate_not_round :
    computeTargetDims 2 2 4 3 = (2, 1) ∧
    computeTargetDimsSpec 2 2 4 3 = (2, 2) ∧
    computeTargetDims 2 2 4 3 ≠ computeTargetDimsSpec 2 2 4 3 := by
  have h1 : computeTargetDims 2 2 4 3 = (2, 1) := by
    simp [computeTargetDims, min_def]
    norm_num
  have h2 : computeTargetDimsSpec 2 2 4 3 = (2, 2) := by
    simp [computeTargetDimsSpec, min_def, round_eq]
    norm_num
  refine ⟨h1, h2, ?_⟩
  rw [h1, h2]
  simp

/-- C4 amended: with the code's float32 arithmetic, when scaling is triggered
(positive max bounds, working dimensions in the validated range, and a working
dimension exceeding its bound), the target dimensions computed with truncation
(`targetW = max(1, trunc(currentW*scale))`, not rounding) are each at most
their bound, and the dimension attaining the min fits its bound to within one
pixel (float rounding can make it undershoot the bound by one, so the exact
fit of ideal arithmetic is weakened to `bound - 1 ≤ target ≤ bound`); a
3840x2160 source with max bound (1920,1080) — where every float operation is
exact — is scaled to exactly 1920x1080, while a 41x2 source with max bound
(2,3) lands at 1x1, one below each bound, because fl32(2/41) < 2/41. -/
theorem scale_target_dims_float_fit :
    ∀ maxW maxH curW curH : Int,
      0 < maxW → maxW ≤ 8192 → 0 < maxH → maxH ≤ 8192 →
      0 < curW → curW ≤ 8192 → 0 < curH → curH ≤ 8192 →
      (maxW < curW ∨ maxH < curH) →
      ((computeTargetDimsFloat maxW maxH curW curH).1 ≤ maxW ∧
       (computeTargetDimsFloat maxW maxH curW curH).2 ≤ maxH ∧
       (maxW - 1 ≤ (computeTargetDimsFloat maxW maxH curW curH).1 ∨
        maxH - 1 ≤ (computeTargetDimsFloat maxW maxH curW curH).2)) ∧
      computeTargetDimsFloat 1920 1080 3840 2160 = (1920, 1080) ∧
      computeTargetDimsFloat 2 3 41 2 = (1, 1) := by
  intro maxW maxH curW curH h1 h2 h3 h4 h5 _ h7 _ _
  exact ⟨computeTargetDimsFloat_bounds maxW maxH curW curH h1 h2 h3 h4 h5 h7,
    ctdf_scenario, ctdf_undershoot⟩

/-- Witness for C4's amended theorem at the concrete 3840x2160/(1920,1080)
trigger input. -/
theorem scale_target_dims_float_fit_witness :
    (0 < (1920 : Int) ∧ (1920 : Int) ≤ 8192 ∧ 0 < (1080 : Int) ∧
     (1080 : Int) ≤ 8192 ∧ 0 < (3840 : Int) ∧ (3840 : Int) ≤ 8192 ∧
     0 < (2160 : Int) ∧ (2160 : Int) ≤ 8192 ∧
     ((1920 : Int) < 3840 ∨ (1080 : Int) < 2160)) ∧
    (((computeTargetDimsFloat 1920 1080 3840 2160).1 ≤ 1920 ∧
      (computeTargetDimsFloat 1920 1080 3840 2160).2 ≤ 1080 ∧
      ((1920 : Int) - 1 ≤ (computeTargetDimsFloat 1920 1080 3840 2160).1 ∨
       (1080 : Int) - 1 ≤ (computeTargetDimsFloat 1920 1080 3840 2160).2)) ∧
     computeTargetDimsFloat 1920 1080 3840 2160 = (1920, 1080) ∧
     computeTargetDimsFloat 2 3 41 2 = (1, 1)) :=
  ⟨⟨by decide, by decide, by decide, by decide, by decide, by decide, by decide,
    by decide, by decide⟩,
   scale_target_dims_float_fit 1920 1080 3840 2160 (by decide) (by decide)
     (by decide) (by decide) (by decide) (by decide) (by decide) (by decide)
     (by decide)⟩

/-- C5: a frame whose texture width or height is non-positive or exceeds 8192
is dropped with no change whatsoever to the session state: latest buffer,
published width and height, and the frame counter are all left as they were. -/
theorem invalid_dimensions_frame_dropped :
    ∀ (s : CaptureSession) (env : FrameEnv),
      env.texW ≤ 0 ∨ env.texH ≤ 0 ∨ 8192 < env.texW ∨ 8192 < env.texH →
      onFrameArrived s env = s := by
  intro s env h
  unfold onFrameArrived
  rw [onFrameArrivedT_not_accepted s env ?hna]
  case hna =>
    intro hacc
    obtain ⟨_, _, _, h4, h5, h6, h7⟩ := hacc
    omega
  rfl

/-- Witness for C5 with a 9000x100 frame arriving at a fresh session. -/
theorem invalid_dimensions_frame_dropped_witness :
    (invalidDimsEnv.texW ≤ 0 ∨ invalidDimsEnv.texH ≤ 0 ∨
      8192 < invalidDimsEnv.texW ∨ 8192 < invalidDimsEnv.texH) ∧
    onFrameArrived initSession invalidDimsEnv = initSession :=
  ⟨by decide, invalid_dimensions_frame_dropped initSession invalidDimsEnv (by decide)⟩

/-- C6 counterexample: the crop setter clamps `x` and `y` only from below; an
`x` of 9000 is stored as 9000, above the claimed 8192 clamp. -/
theorem crop_x_not_clamped_above :
    (setCaptureCropRect initSession 9000 0 10 10).cropX = 9000 ∧
    ¬(setCaptureCropRect initSession 9000 0 10 10).cropX ≤ 8192 := by
  decide

/-- C6 amended: the crop setter stores `x` and `y` clamped from below only
(negatives become 0, no upper clamp), while width and height are clamped into
[0, 8192]; a stored zero width or height disables cropping, in which case the
crop stage passes the source texture through unchanged. -/
theorem crop_rect_clamp_and_disable :
    ∀ (s : CaptureSession) (x y w h : Int),
      ((setCaptureCropRect s x y w h).cropX = max x 0 ∧
       (setCaptureCropRect s x y w h).cropY = max y 0 ∧
       (setCaptureCropRect s x y w h).cropW = min (max w 0) 8192 ∧
       (setCaptureCropRect s x y w h).cropH = min (max h 0) 8192) ∧
      ∀ (s' : CaptureSession) (tw th : Int) (env : FrameEnv),
        s'.cropW = 0 ∨ s'.cropH = 0 →
        cropStage s' tw th env =
          { session := s', curW := tw, curH := th, tex := GpuTex.source } := by
  intro s x y w h
  constructor
  · refine ⟨?_, ?_, ?_, ?_⟩ <;>
      · simp only [setCaptureCropRect]
        split_ifs <;> (try simp) <;> omega
  · intro s' tw th env hz
    simp only [cropStage]
    rw [if_neg (by omega)]

/-- Witness for C6's amended theorem: zero crop width on a fresh session makes
the crop stage pass the source through. -/
theorem crop_rect_clamp_and_disable_witness :
    (initSession.cropW = 0 ∨ initSession.cropH = 0) ∧
    cropStage initSession 7 9 scaleVetoEnv =
      { session := initSession, curW := 7, curH := 9, tex := GpuTex.source } :=
  ⟨by decide,
   (crop_rect_clamp_and_disable initSession 0 0 0 0).2 initSession 7 9 scaleVetoEnv
     (by decide)⟩

/-- C7: whichever path performs the readback, the produced host buffer of a
mapped `w` x `h` staging texture is exactly `w*4*h` bytes, and byte `j` of row
`y` equals the mapped byte at offset `y*pitch + j` — the per-row pitch padding
is discarded (when the pitch equals `w*4` the single-pass copy agrees with
this byte-for-byte). -/
theorem readback_buffer_tightly_packed :
    ∀ (w h pitch : Nat) (src : Nat → Nat),
      (copyPixels w h pitch src).length = w * 4 * h ∧
      (0 < w → ∀ y j : Nat, y < h → j < w * 4 →
        (copyPixels w h pitch src)[y * (w * 4) + j]? =
          Option.some (src (y * pitch + j))) :=
  fun w h pitch src =>
    ⟨copyPixels_length w h pitch src,
     fun hw y j hy hj => copyPixels_get w h pitch src hw y j hy hj⟩

/-- Witness for C7 at a 1x1 texture mapped with pitch 8. -/
theorem readback_buffer_tightly_packed_witness :
    0 < 1 ∧ 0 < 1 ∧ (0 : Nat) < 1 * 4 ∧
    (copyPixels 1 1 8 (fun i => i))[0 * (1 * 4) + 0]? =
      Option.some ((fun i : Nat => i) (0 * 8 + 0)) :=
  ⟨by decide, by decide, by decide,
   (readback_buffer_tightly_packed 1 1 8 (fun i => i)).2 (by decide) 0 0
     (by decide) (by decide)⟩

/-- C8: the copy-out call on a non-null handle returns true and copies the
whole latest buffer into the front of the destination when the destination
size suffices; it returns false and writes nothing into the destination when
no frame has been published yet or when the destination is smaller than the
latest buffer. -/
theorem copy_out_full_or_nothing :
    ∀ (s : CaptureSession) (dest : List Nat) (bufferSize : Nat) (oldW oldH : Int),
      (s.latestData ≠ [] → s.latestData.length ≤ bufferSize →
        (getLatestFrame (Option.some s) dest bufferSize oldW oldH).ok = true ∧
        (getLatestFrame (Option.some s) dest bufferSize oldW oldH).dest =
          s.latestData ++ dest.drop s.latestData.length) ∧
      (s.latestData = [] →
        getLatestFrame (Option.some s) dest bufferSize oldW oldH =
          { ok := false, dest := dest, outW := oldW, outH := oldH }) ∧
      (s.latestData ≠ [] → bufferSize < s.latestData.length →
        (getLatestFrame (Option.some s) dest bufferSize oldW oldH).ok = false ∧
        (getLatestFrame (Option.some s) dest bufferSize oldW oldH).dest = dest) := by
  intro s dest bufferSize oldW oldH
  simp only [getLatestFrame]
  split_ifs with h1 h2 <;> simp_all <;> omega

/-- Witness for C8: a four-byte frame copied into a four-byte destination. -/
theorem copy_out_full_or_nothing_witness :
    (publishedSession.latestData ≠ [] ∧
      publishedSession.latestData.length ≤ 4) ∧
    ((getLatestFrame (Option.some publishedSession) [0, 0, 0, 0] 4 0 0).ok = true ∧
     (getLatestFrame (Option.some publishedSession) [0, 0, 0, 0] 4 0 0).dest =
       publishedSession.latestData ++
         List.drop publishedSession.latestData.length [0, 0, 0, 0]) :=
  ⟨⟨by decide, by decide⟩,
   (copy_out_full_or_nothing publishedSession [0, 0, 0, 0] 4 0 0).1 (by decide)
     (by decide)⟩

/-- C9 counterexample: a release without a matching acquire drives the reader
count negative — on a fresh session a single `ReleaseLatestFrame` leaves the
count at -1, so the count does not remain non-negative over every sequence of
lease operations. -/
theorem release_without_acquire_underflows :
    (runLeaseOps initSession [LeaseOp.release]).readers < 0 := by
  decide

/-- C9 amended: on a session holding a published frame, every acquire succeeds
and increments the reader count by exactly one, an acquire on a session without
a frame fails and changes nothing, every release decrements the count by
exactly one unconditionally, and along any operation sequence in which no
prefix has more releases than acquires the count stays non-negative; a
positive count never blocks the producer — it only makes the publish attempt
drop its frame. -/
theorem reader_count_lease_discipline :
    (∀ s : CaptureSession, s.latestData ≠ [] →
      (acquireLatestFrame s).ok = true ∧
      (acquireLatestFrame s).session.readers = s.readers + 1) ∧
    (∀ s : CaptureSession, s.latestData = [] →
      acquireLatestFrame s = { session := s, ok := false, out := Option.none }) ∧
    (∀ s : CaptureSession, (releaseLatestFrame s).readers = s.readers - 1) ∧
    (∀ (ops : List LeaseOp) (s : CaptureSession),
      s.latestData ≠ [] → s.readers = 0 →
      (∀ n, (countReleases (List.take n ops) : Int) ≤
        (countAcquires (List.take n ops) : Int)) →
      ∀ n, 0 ≤ (runLeaseOps s (List.take n ops)).readers) ∧
    (∀ (s : CaptureSession) (env : FrameEnv), 0 < s.readers →
      (onFrameArrivedT s env).published = false) := by
  refine ⟨?_, ?_, ?_, ?_, ?_⟩
  · intro s hne
    simp [acquireLatestFrame, hne]
  · intro s he
    simp [acquireLatestFrame, he]
  · intro s
    simp [releaseLatestFrame]
  · intro ops s hne hz hbal n
    rw [runLeaseOps_readers (List.take n ops) s hne, hz]
    have := hbal n
    omega
  · intro s env hpos
    obtain ⟨_, _, _, _, h5⟩ := onFrameArrivedT_spec s env
    exact (h5 hpos).2

/-- Witness for C9's amended theorem: an acquire on a session with a published
frame succeeds and raises the count from 0 to 1. -/
theorem reader_count_lease_discipline_witness :
    publishedSession.latestData ≠ [] ∧
    ((acquireLatestFrame publishedSession).ok = true ∧
     (acquireLatestFrame publishedSession).session.readers =
       publishedSession.readers + 1) :=
  ⟨by decide, reader_count_lease_discipline.1 publishedSession (by decide)⟩

/-- C10: when a published frame exists but the destination is too small, the
copy-out call returns false without touching the destination, yet has already
written the current width and height through the out-parameters; when it
returns false because no frame exists, the out-parameters keep their previous
values. -/
theorem copy_out_out_params :
    ∀ (s : CaptureSession) (dest : List Nat) (bufferSize : Nat) (oldW oldH : Int),
      (s.latestData ≠ [] → bufferSize < s.latestData.length →
        (getLatestFrame (Option.some s) dest bufferSize oldW oldH).ok = false ∧
        (getLatestFrame (Option.some s) dest bufferSize oldW oldH).dest = dest ∧
        (getLatestFrame (Option.some s) dest bufferSize oldW oldH).outW = s.width ∧
        (getLatestFrame (Option.some s) dest bufferSize oldW oldH).outH = s.height) ∧
      (s.latestData = [] →
        (getLatestFrame (Option.some s) dest bufferSize oldW oldH).ok = false ∧
        (getLatestFrame (Option.some s) dest bufferSize oldW oldH).dest = dest ∧
        (getLatestFrame (Option.some s) dest bufferSize oldW oldH).outW = oldW ∧
        (getLatestFrame (Option.some s) dest bufferSize oldW oldH).outH = oldH) := by
  intro s dest bufferSize oldW oldH
  simp only [getLatestFrame]
  split_ifs with h1 h2 <;> simp_all <;> omega

/-- Witness for C10: a four-byte frame against a one-byte destination returns
false, leaves the destination alone, and reports the published 1x1 size. -/
theorem copy_out_out_params_witness :
    (publishedSession.latestData ≠ [] ∧ 1 < publishedSession.latestData.length) ∧
    ((getLatestFrame (Option.some publishedSession) [0] 1 7 7).ok = false ∧
     (getLatestFrame (Option.some publishedSession) [0] 1 7 7).dest = [0] ∧
     (getLatestFrame (Option.some publishedSession) [0] 1 7 7).outW =
       publishedSession.width ∧
     (getLatestFrame (Option.some publishedSession) [0] 1 7 7).outH =
       publishedSession.height) :=
  ⟨⟨by decide, by decide⟩,
   (copy_out_out_params publishedSession [0] 1 7 7).1 (by decide) (by decide)⟩
